import Mathlib

/-!
# Verification of the poloniexlendingbot control loop and exchange factory

Shallow embedding of `poloniexlendingbot/bin/lendingbot.py` (the control
loop `main`, lines 73–141) and `poloniexlendingbot/ExchangeApiFactory.py`.

The repository is Python 3 (`from http.client import BadStatusLine`,
`from urllib.error import URLError` are Python-3-only modules).  The
embedding therefore follows Python 3 semantics; the one place where this
matters is the membership test `'Invalid API key' in ex` on an exception
instance, see `pyMember` below.

Effects (prints, log calls, sleeps, plugin hooks, the cycle's remote
operations) are modelled as an ordered trace of `Event`s; mutable adapter
state (`api.req_period`) is threaded explicitly as `ApiState`.
-/

set_option autoImplicit false

namespace LendingBot

/-- The Python exception classes the control loop distinguishes, by the
`except` clauses of `main` (lines 87–96).  `other` is any other subclass of
`Exception` (the generic `except Exception as ex` clause); exceptions that
match none of the clauses are out of scope of the loop's handlers. -/
inductive ExcKind where
  | keyboardInterrupt
  | badStatusLine
  | urlError
  | apiError
  | other
  deriving DecidableEq, Repr

/-- A Python exception instance as the loop observes it: its class (coarsened
to the `except`-clause granularity) and its `str(ex)` message. -/
structure PyExc where
  kind : ExcKind
  msg : String
  deriving DecidableEq, Repr

/-- The `TypeError` raised by a Python 3 membership test on a non-container
object.  Its class is neither `KeyboardInterrupt`, `BadStatusLine`,
`URLError` nor `ApiError`, hence `ExcKind.other`. -/
def pyTypeError : PyExc :=
  ⟨ExcKind.other, "argument of type an exception class is not iterable"⟩

/-- Python 3 semantics of `needle in ex` where `ex` is a `BaseException`
instance: `BaseException` (and every exception class raised by this
codebase) defines none of `__contains__`, `__iter__`, `__getitem__`, so the
membership test raises `TypeError` unconditionally.  (Python 2, which the
upstream project targeted via `ex.message`, is not applicable here: the
module imports `http.client` and `urllib.error`.) -/
def pyMember (_needle : String) (_ex : PyExc) : Except PyExc Bool :=
  Except.error pyTypeError

/-- Test that `needle` is a prefix of `hay` (over character lists). -/
def charsPrefix : List Char → List Char → Bool
  | [], _ => true
  | _ :: _, [] => false
  | c :: cs, d :: ds => c == d && charsPrefix cs ds

/-- Test that `needle` occurs as a contiguous run inside `hay`. -/
def charsContain (needle : List Char) : List Char → Bool
  | [] => charsPrefix needle []
  | c :: rest => charsPrefix needle (c :: rest) || charsContain needle rest

/-- Test that `needle` occurs as a contiguous substring of `hay`. -/
def strContains (hay needle : String) : Bool :=
  charsContain needle.data hay.data

/-- The membership test the surrounding code evidently intends (upstream
wrote `needle in ex.message`): substring of the human-readable message.
Used only to describe what the handler would do were the membership test
not a `TypeError`; `pyMember` is the authoritative semantics. -/
def pyMemberStr (needle : String) (ex : PyExc) : Except PyExc Bool :=
  Except.ok (strContains ex.msg needle)

/-- Configuration and collaborator values read by the loop; fixed for the
process lifetime (the core only reads configuration). -/
structure Env where
  /-- Value of Lending.get_sleep_time, the configured cycle interval in seconds. -/
  sleepTime : ℚ
  /-- Value of Config.has_option for MarketAnalysis analyseCurrencies. -/
  analyseCurrencies : Bool
  /-- Value of Config.getboolean for MarketAnalysis ma_debug_log. -/
  ma_debug_log : Bool
  /-- Value of the notify_caught_exception notification option. -/
  notify_caught_exception : Bool
  /-- Value of the web_server_enabled flag computed during startup. -/
  web_server_enabled : Bool
  deriving DecidableEq, Repr

/-- Mutable adapter throttling state (`api.req_period` and its default),
in milliseconds. -/
structure ApiState where
  req_period : ℚ
  default_req_period : ℚ
  deriving DecidableEq, Repr

/-- Observable effects of the loop, in program order. -/
inductive Event where
  | updateConversionRates
  | beforeLending
  | transferBalances
  | cancelAll
  | lendAll
  | refreshStatus
  | afterLending
  | persistStatus
  | flushStdout
  | sleep (seconds : ℚ)
  | logError (excMsg : String)
  | logBanSleep (totalSeconds : ℚ)
  | logExpectBan
  | print (m : String)
  | printTimedOutRetry (seconds : ℚ)
  | printReqPeriod (ms : ℚ)
  | printTraceback
  | printUnhandledVersion
  | notify (excMsg : String)
  | stopWebServer
  | onBotExit
  | logMsg (m : String)
  deriving DecidableEq, Repr

/-- Whether the inner loop proceeds to its next iteration or an exception
propagates out of the inner `try`. -/
inductive Outcome where
  | next
  | raised (e : PyExc)
  deriving DecidableEq, Repr

/-- Lines 96–133, the `except Exception as ex` clause, parameterized by the
semantics of the membership operator `in` (the source writes
`'Invalid API key' in ex` and so on; `pyMember` is the Python 3 meaning).
Returns the loop outcome, the adapter state after the clause, and the
clause's effect trace.  A branch ending in `raise` re-raises `ex` and skips
the trailing `sys.stdout.flush(); time.sleep(...)`; a failing membership
test propagates the `TypeError` it raises, likewise skipping the rest. -/
def genericExceptClause (member : String → PyExc → Except PyExc Bool)
    (env : Env) (st : ApiState) (ex : PyExc) : Outcome × ApiState × List Event :=
  let entry : List Event := [Event.logError ex.msg, Event.persistStatus]
  match member "Invalid API key" ex with
  | Except.error te => (Outcome.raised te, st, entry)
  | Except.ok true =>
      (Outcome.raised ex, st, entry ++
        [Event.print "!!! Troubleshooting !!!",
         Event.print "Are your API keys correct? No quotation. Just plain keys."])
  | Except.ok false =>
  match member "Nonce must be greater" ex with
  | Except.error te => (Outcome.raised te, st, entry)
  | Except.ok true =>
      (Outcome.raised ex, st, entry ++
        [Event.print "!!! Troubleshooting !!!",
         Event.print "Are you reusing the API key in multiple applications? Use a unique key for every application."])
  | Except.ok false =>
  match member "Permission denied" ex with
  | Except.error te => (Outcome.raised te, st, entry)
  | Except.ok true =>
      (Outcome.raised ex, st, entry ++
        [Event.print "!!! Troubleshooting !!!",
         Event.print "Are you using IP filter on the key? Maybe your IP changed?"])
  | Except.ok false =>
  match member "timed out" ex with
  | Except.error te => (Outcome.raised te, st, entry)
  | Except.ok true =>
      (Outcome.next, st, entry ++
        [Event.printTimedOutRetry env.sleepTime, Event.flushStdout,
         Event.sleep env.sleepTime])
  | Except.ok false =>
  match member "Error 429" ex with
  | Except.error te => (Outcome.raised te, st, entry)
  | Except.ok true =>
      let additional_sleep := max (130 - env.sleepTime) 0
      let sum_sleep := additional_sleep + env.sleepTime
      let stAndMa :=
        if env.analyseCurrencies then
          let st2 := if st.req_period ≤ st.default_req_period * (3 / 2)
                     then { st with req_period := st.req_period + 3 } else st
          (st2, if env.ma_debug_log
                then [Event.printReqPeriod st2.req_period, Event.logExpectBan]
                else [])
        else (st, ([] : List Event))
      (Outcome.next, stAndMa.1, entry ++
        [Event.logBanSleep sum_sleep] ++ stAndMa.2 ++
        [Event.sleep additional_sleep, Event.flushStdout,
         Event.sleep env.sleepTime])
  | Except.ok false =>
      (Outcome.next, st, entry ++
        [Event.printTraceback, Event.printUnhandledVersion] ++
        (if env.notify_caught_exception then [Event.notify ex.msg] else []) ++
        [Event.flushStdout, Event.sleep env.sleepTime])

/-- Lines 87–133: the ordered `except` clauses of the inner `try`.  A
`KeyboardInterrupt` is re-raised; `BadStatusLine`, `URLError` and `ApiError`
each print one message and let the loop continue; every other `Exception`
goes to `genericExceptClause`. -/
def handleExc (member : String → PyExc → Except PyExc Bool)
    (env : Env) (st : ApiState) (ex : PyExc) : Outcome × ApiState × List Event :=
  match ex.kind with
  | ExcKind.keyboardInterrupt => (Outcome.raised ex, st, [])
  | ExcKind.badStatusLine =>
      (Outcome.next, st,
        [Event.print "Caught BadStatusLine exception from Poloniex, ignoring."])
  | ExcKind.urlError =>
      (Outcome.next, st,
        [Event.print ("Caught " ++ ex.msg ++ " from exchange, ignoring.")])
  | ExcKind.apiError =>
      (Outcome.next, st,
        [Event.print ("Caught " ++ ex.msg ++ " reading from exchange API, ignoring.")])
  | ExcKind.other => genericExceptClause member env st ex

/-- The statements of the cycle body (lines 76–86), in program order. -/
inductive Step where
  | updateConversionRates
  | beforeLending
  | transferBalances
  | cancelAll
  | lendAll
  | afterLending
  | refreshStatus
  | persistStatus
  | flushStdout
  | sleepStep
  deriving DecidableEq, Repr

/-- The cycle body statements in source order (lines 76–86). -/
def stepOrder : List Step :=
  [Step.updateConversionRates, Step.beforeLending, Step.transferBalances,
   Step.cancelAll, Step.lendAll, Step.afterLending, Step.refreshStatus,
   Step.persistStatus, Step.flushStdout, Step.sleepStep]

/-- The trace event a completed cycle statement emits. -/
def stepEvent (env : Env) : Step → Event
  | Step.updateConversionRates => Event.updateConversionRates
  | Step.beforeLending => Event.beforeLending
  | Step.transferBalances => Event.transferBalances
  | Step.cancelAll => Event.cancelAll
  | Step.lendAll => Event.lendAll
  | Step.afterLending => Event.afterLending
  | Step.refreshStatus => Event.refreshStatus
  | Step.persistStatus => Event.persistStatus
  | Step.flushStdout => Event.flushStdout
  | Step.sleepStep => Event.sleep env.sleepTime

/-- The environment's behaviour during one cycle: for each statement,
either it completes (`none`) or it raises a given exception (`some e`).
Abstracts the remote exchange, collaborators and the operator's Ctrl-C. -/
structure World where
  failsAt : Step → Option PyExc

/-- Run a list of cycle statements in order: stop at the first one that
raises, returning the exception together with the events of the statements
that completed before it. -/
def runSteps (env : Env) (w : World) :
    List Step → Except (PyExc × List Event) (List Event)
  | [] => Except.ok []
  | s :: rest =>
    match w.failsAt s with
    | some e => Except.error (e, [])
    | none =>
      match runSteps env w rest with
      | Except.ok evs => Except.ok (stepEvent env s :: evs)
      | Except.error (e, evs) => Except.error (e, stepEvent env s :: evs)

/-- One attempt at the cycle body (the inner `try` block, lines 76–86). -/
def runCycle (env : Env) (w : World) : Except (PyExc × List Event) (List Event) :=
  runSteps env w stepOrder

/-- One iteration of `while True` (lines 74–133): the cycle body, with any
exception it raises dispatched to the `except` chain. -/
def runIteration (member : String → PyExc → Except PyExc Bool)
    (env : Env) (st : ApiState) (w : World) : Outcome × ApiState × List Event :=
  match runCycle env w with
  | Except.ok evs => (Outcome.next, st, evs)
  | Except.error (e, evs) =>
      match handleExc member env st e with
      | (o, st', hevs) => (o, st', evs ++ hevs)

/-- How the modelled run of `while True` ends. -/
inductive LoopExit where
  | exited (e : PyExc)
  | horizon
  deriving DecidableEq, Repr

/-- The `while True` loop over a finite list of per-iteration worlds; the
loop itself is unbounded, so an exhausted list means the loop is still
running at the modelling horizon. -/
def runLoop (member : String → PyExc → Except PyExc Bool) (env : Env) :
    ApiState → List World → LoopExit × ApiState × List Event
  | st, [] => (LoopExit.horizon, st, [])
  | st, w :: ws =>
    match runIteration member env st w with
    | (Outcome.next, st', evs) =>
        match runLoop member env st' ws with
        | (r, st'', evs') => (r, st'', evs ++ evs')
    | (Outcome.raised e, st', evs) => (LoopExit.exited e, st', evs)

/-- How `main` (lines 73–141) ends. -/
inductive MainResult where
  | returned
  | crashed (e : PyExc)
  | stillRunning
  deriving DecidableEq, Repr

/-- Lines 136–141: the outer `except KeyboardInterrupt` clause. -/
def exitEvents (env : Env) : List Event :=
  (if env.web_server_enabled then [Event.stopWebServer] else []) ++
  [Event.onBotExit, Event.logMsg "bye", Event.print "bye"]

/-- Lines 73–141 of `main`: the outer `try` around the loop.  Only a
`KeyboardInterrupt` escaping the loop is caught; it triggers the exit
sequence and `main` returns normally (process exit code 0).  Any other
escaping exception propagates out of `main` (non-zero exit). -/
def runMain (member : String → PyExc → Except PyExc Bool) (env : Env)
    (st : ApiState) (worlds : List World) : MainResult × ApiState × List Event :=
  match runLoop member env st worlds with
  | (LoopExit.exited e, st', evs) =>
      if e.kind = ExcKind.keyboardInterrupt
      then (MainResult.returned, st', evs ++ exitEvents env)
      else (MainResult.crashed e, st', evs)
  | (LoopExit.horizon, st', evs) => (MainResult.stillRunning, st', evs)

/-- The loop of main under the authoritative Python 3 membership semantics. -/
def lendingbotMain (env : Env) (st : ApiState) (worlds : List World) :
    MainResult × ApiState × List Event :=
  runMain pyMember env st worlds

/-! ## `ExchangeApiFactory` (ExchangeApiFactory.py) -/

/-- A constructed concrete `ExchangeApi` instance, recording which class was
instantiated and the `cfg`/`log` references passed to its constructor
(collaborator objects, modelled as opaque tags). -/
inductive ExchangeApiInstance where
  | poloniex (cfg : Nat) (log : Nat)
  | bitfinex (cfg : Nat) (log : Nat)
  deriving DecidableEq, Repr

/-- The module-level `EXCHANGE` dict of ExchangeApiFactory.py, line 8:
exchange identifier to class (constructor). -/
def EXCHANGE : List (String × (Nat → Nat → ExchangeApiInstance)) :=
  [("POLONIEX", ExchangeApiInstance.poloniex),
   ("BITFINEX", ExchangeApiInstance.bitfinex)]

/-- Function ExchangeApiFactory.createApi (lines 12-16): raise
`Exception('Invalid exchange: ...')` when the identifier is not a key of
`EXCHANGE`, otherwise instantiate the selected class with `cfg` and `log`. -/
def createApi (exchange : String) (cfg : Nat) (log : Nat) :
    Except PyExc ExchangeApiInstance :=
  match EXCHANGE.lookup exchange with
  | none => Except.error ⟨ExcKind.other, "Invalid exchange: " ++ exchange⟩
  | some mk => Except.ok (mk cfg log)

/-! ## Concrete instances used by witnesses and counterexamples -/

/-- A representative configuration: 60 s cycle interval, MarketAnalysis
enabled, debug log off, notification on error configured, no web server. -/
def env0 : Env := ⟨60, true, false, true, false⟩

/-- Same as `env0` but without the `MarketAnalysis.analyseCurrencies`
option. -/
def envNoMA : Env := ⟨60, false, false, true, false⟩

/-- Adapter state at its default request period (100 ms). -/
def st0 : ApiState := ⟨100, 100⟩

/-- A cycle in which every statement completes. -/
def worldOK : World := ⟨fun _ => none⟩

/-- A cycle in which statement `s` raises `e` and all others complete. -/
def worldFail (s : Step) (e : PyExc) : World :=
  ⟨fun s' => if s' = s then some e else none⟩

/-- The exception the cycle body raises, if any (`none` when the whole body
completes). -/
def cycleException (env : Env) (w : World) : Option PyExc :=
  match runCycle env w with
  | Except.ok _ => none
  | Except.error (e, _) => some e

/-! ## Helper lemmas -/

lemma runSteps_nil (env : Env) (w : World) : runSteps env w [] = Except.ok [] := rfl

lemma cycleException_eq_some {env : Env} {w : World} {e : PyExc}
    (h : cycleException env w = some e) :
    ∃ evs, runCycle env w = Except.error (e, evs) := by
  unfold cycleException at h
  cases hc : runCycle env w with
  | ok evs => rw [hc] at h; simp at h
  | error p =>
    obtain ⟨e', evs⟩ := p
    rw [hc] at h
    simp at h
    exact ⟨evs, by rw [h]⟩

lemma runSteps_error_events_are_steps (env : Env) (w : World) :
    ∀ (l : List Step) (e : PyExc) (evs : List Event),
      runSteps env w l = Except.error (e, evs) →
      ∀ ev ∈ evs, ∃ s, ev = stepEvent env s := by
  intro l
  induction l with
  | nil => intro e evs h; simp [runSteps] at h
  | cons s rest ih =>
    intro e evs h ev hev
    simp only [runSteps] at h
    split at h
    · cases h
      simp at hev
    · split at h
      · cases h
      · cases h
        rcases List.mem_cons.mp hev with h1 | h1
        · exact ⟨s, h1⟩
        · exact ih _ _ (by assumption) ev h1

lemma runSteps_ok_events_are_steps (env : Env) (w : World) :
    ∀ (l : List Step) (evs : List Event),
      runSteps env w l = Except.ok evs →
      ∀ ev ∈ evs, ∃ s, ev = stepEvent env s := by
  intro l
  induction l with
  | nil =>
    intro evs h
    cases h
    simp
  | cons s rest ih =>
    intro evs h ev hev
    simp only [runSteps] at h
    split at h
    · cases h
    · split at h
      · cases h
        rcases List.mem_cons.mp hev with h1 | h1
        · exact ⟨s, h1⟩
        · exact ih _ (by assumption) ev h1
      · cases h

lemma runSteps_error_sleep_free (env : Env) (w : World) :
    ∀ (l : List Step), Step.sleepStep ∉ l.dropLast →
      ∀ (e : PyExc) (evs : List Event),
        runSteps env w l = Except.error (e, evs) →
        ∀ t, Event.sleep t ∉ evs := by
  intro l
  induction l with
  | nil => intro _ e evs h; simp [runSteps] at h
  | cons s rest ih =>
    intro hs e evs h t hmem
    simp only [runSteps] at h
    split at h
    · cases h
      simp at hmem
    · split at h
      · cases h
      · cases h
        rename_i heq
        have hrest : rest ≠ [] := by
          intro hnil
          rw [hnil, runSteps_nil] at heq
          cases heq
        rcases List.mem_cons.mp hmem with h1 | h1
        · have hsleep : s = Step.sleepStep := by
            cases s <;> first | rfl | simp [stepEvent] at h1
          apply hs
          obtain ⟨r, rest', rfl⟩ := List.exists_cons_of_ne_nil hrest
          rw [hsleep]
          simp [List.dropLast]
        · refine ih ?_ _ _ heq t h1
          intro hmem'
          apply hs
          obtain ⟨r, rest', rfl⟩ := List.exists_cons_of_ne_nil hrest
          simpa [List.dropLast] using Or.inr hmem'

lemma stepEvent_ne_onBotExit (env : Env) (s : Step) :
    stepEvent env s ≠ Event.onBotExit := by
  cases s <;> simp [stepEvent]

lemma stepEvent_ne_logError (env : Env) (s : Step) (m : String) :
    stepEvent env s ≠ Event.logError m := by
  cases s <;> simp [stepEvent]

lemma handleExc_pyMember_state (env : Env) (st : ApiState) (ex : PyExc) :
    (handleExc pyMember env st ex).2.1 = st := by
  obtain ⟨k, m⟩ := ex
  cases k <;> rfl

/-- Under Python 3 membership semantics, the generic `except Exception`
clause always stops at its first `elif` condition: the membership test on
the exception raises `TypeError`, which propagates after the two entry
effects `log.log_error(ex)` and `log.persistStatus()`. -/
lemma handleExc_pyMember_other (env : Env) (st : ApiState) (ex : PyExc)
    (h : ex.kind = ExcKind.other) :
    handleExc pyMember env st ex =
      (Outcome.raised pyTypeError, st,
       [Event.logError ex.msg, Event.persistStatus]) := by
  obtain ⟨k, m⟩ := ex
  simp only at h
  subst h
  rfl

lemma handleExc_pyMember_onBotExit_free (env : Env) (st : ApiState) (ex : PyExc) :
    Event.onBotExit ∉ (handleExc pyMember env st ex).2.2 := by
  obtain ⟨k, m⟩ := ex
  cases k <;> simp [handleExc, genericExceptClause, pyMember]

lemma runIteration_onBotExit_free (env : Env) (st : ApiState) (w : World) :
    Event.onBotExit ∉ (runIteration pyMember env st w).2.2 := by
  unfold runIteration
  cases hc : runCycle env w with
  | ok evs =>
    simp only
    intro hmem
    obtain ⟨s, hs⟩ := runSteps_ok_events_are_steps env w stepOrder evs hc _ hmem
    exact stepEvent_ne_onBotExit env s hs.symm
  | error p =>
    obtain ⟨e, evs⟩ := p
    simp only
    intro hmem
    rcases List.mem_append.mp hmem with h1 | h1
    · obtain ⟨s, hs⟩ := runSteps_error_events_are_steps env w stepOrder e evs hc _ h1
      exact stepEvent_ne_onBotExit env s hs.symm
    · exact handleExc_pyMember_onBotExit_free env st e h1

lemma runLoop_onBotExit_free (env : Env) :
    ∀ (ws : List World) (st : ApiState),
      Event.onBotExit ∉ (runLoop pyMember env st ws).2.2 := by
  intro ws
  induction ws with
  | nil => intro st; simp [runLoop]
  | cons w rest ih =>
    intro st
    simp only [runLoop]
    cases hit : runIteration pyMember env st w with
    | mk o p =>
      obtain ⟨st', evs⟩ := p
      cases o with
      | next =>
        simp only
        intro hmem
        rcases List.mem_append.mp hmem with h1 | h1
        · exact runIteration_onBotExit_free env st w (by rw [hit]; exact h1)
        · exact ih st' h1
      | raised e =>
        simp only
        intro hmem
        exact runIteration_onBotExit_free env st w (by rw [hit]; exact hmem)

lemma runIteration_pyMember_state (env : Env) (st : ApiState) (w : World) :
    (runIteration pyMember env st w).2.1 = st := by
  unfold runIteration
  cases hc : runCycle env w with
  | ok evs => rfl
  | error p =>
    obtain ⟨e, evs⟩ := p
    have hst := handleExc_pyMember_state env st e
    cases hh : handleExc pyMember env st e with
    | mk o q =>
      obtain ⟨st', hevs⟩ := q
      rw [hh] at hst
      simp only at hst
      simp only [hh, hst]

lemma runLoop_next_append (env : Env) (st : ApiState) :
    ∀ (pre : List World),
      (∀ w' ∈ pre, (runIteration pyMember env st w').1 = Outcome.next) →
      ∀ (rest : List World),
        runLoop pyMember env st (pre ++ rest) =
          ((runLoop pyMember env st rest).1,
           (runLoop pyMember env st rest).2.1,
           (runLoop pyMember env st pre).2.2 ++ (runLoop pyMember env st rest).2.2) := by
  intro pre
  induction pre with
  | nil =>
    intro _ rest
    simp [runLoop]
  | cons w' pre' ih =>
    intro hpre rest
    have hnext := hpre w' (List.mem_cons_self w' pre')
    have hstate := runIteration_pyMember_state env st w'
    cases hit : runIteration pyMember env st w' with
    | mk o q =>
      obtain ⟨st2, evs1⟩ := q
      rw [hit] at hnext hstate
      simp only at hnext hstate
      subst hnext
      subst hstate
      have ih' := ih (fun w'' hw => hpre w'' (List.mem_cons_of_mem w' hw)) rest
      simp only [List.cons_append, runLoop, hit, ih']
      simp [ih', List.append_assoc]

lemma exitEvents_onBotExit_count (env : Env) :
    (exitEvents env).count Event.onBotExit = 1 := by
  cases h : env.web_server_enabled <;> simp [exitEvents, h]

/-- C5: a `KeyboardInterrupt` raised inside the cycle body or during any
sleep is never swallowed by the failure handlers: the inner `except
KeyboardInterrupt: raise` clause re-raises it, the loop stops before the
next cycle begins (the worlds after the interrupted one are irrelevant to
the run), the `on_bot_exit` plugin hook runs exactly once, and `main`
returns normally (clean stop, exit code 0). -/
theorem keyboardInterrupt_clean_stop
    (env : Env) (st : ApiState) (pre post : List World) (w : World) (e : PyExc)
    (hkind : e.kind = ExcKind.keyboardInterrupt)
    (hraise : cycleException env w = some e)
    (hpre : ∀ w' ∈ pre, (runIteration pyMember env st w').1 = Outcome.next) :
    (runIteration pyMember env st w).1 = Outcome.raised e ∧
    lendingbotMain env st (pre ++ w :: post) = lendingbotMain env st (pre ++ [w]) ∧
    (lendingbotMain env st (pre ++ w :: post)).1 = MainResult.returned ∧
    ((lendingbotMain env st (pre ++ w :: post)).2.2).count Event.onBotExit = 1 := by
  obtain ⟨evs0, hc⟩ := cycleException_eq_some hraise
  have hki : handleExc pyMember env st e = (Outcome.raised e, st, []) := by
    obtain ⟨k, m⟩ := e
    simp only at hkind
    subst hkind
    rfl
  have hiter : runIteration pyMember env st w = (Outcome.raised e, st, evs0) := by
    simp [runIteration, hc, hki]
  have hone : runLoop pyMember env st (w :: post) = (LoopExit.exited e, st, evs0) := by
    simp only [runLoop, hiter]
  have hone' : runLoop pyMember env st [w] = (LoopExit.exited e, st, evs0) := by
    simp only [runLoop, hiter]
  have hL1 := runLoop_next_append env st pre hpre (w :: post)
  have hL2 := runLoop_next_append env st pre hpre [w]
  rw [hone] at hL1
  rw [hone'] at hL2
  have hmain : lendingbotMain env st (pre ++ w :: post) =
      (MainResult.returned, st,
       ((runLoop pyMember env st pre).2.2 ++ evs0) ++ exitEvents env) := by
    unfold lendingbotMain runMain
    rw [hL1]
    simp [hkind]
  refine ⟨by rw [hiter], ?_, by rw [hmain], ?_⟩
  · unfold lendingbotMain runMain
    rw [hL1, hL2]
  · rw [hmain]
    simp only [List.count_append]
    have h1 : ((runLoop pyMember env st pre).2.2).count Event.onBotExit = 0 :=
      List.count_eq_zero.mpr (runLoop_onBotExit_free env pre st)
    have h2 : evs0.count Event.onBotExit = 0 := by
      refine List.count_eq_zero.mpr ?_
      intro hmem
      obtain ⟨s, hs⟩ := runSteps_error_events_are_steps env w stepOrder e evs0 hc _ hmem
      exact stepEvent_ne_onBotExit env s hs.symm
    rw [h1, h2, exitEvents_onBotExit_count]

/-- A `KeyboardInterrupt` delivered while the loop is in `time.sleep` at
the end of an otherwise complete cycle. -/
def kiExc : PyExc := ⟨ExcKind.keyboardInterrupt, "KeyboardInterrupt"⟩

/-- The world of a cycle interrupted by the operator during the sleep
phase. -/
def wKI : World := worldFail Step.sleepStep kiExc

theorem keyboardInterrupt_clean_stop_witness :
    (runIteration pyMember env0 st0 wKI).1 = Outcome.raised kiExc ∧
    lendingbotMain env0 st0 ([] ++ wKI :: [worldOK]) =
      lendingbotMain env0 st0 ([] ++ [wKI]) ∧
    (lendingbotMain env0 st0 ([] ++ wKI :: [worldOK])).1 = MainResult.returned ∧
    ((lendingbotMain env0 st0 ([] ++ wKI :: [worldOK])).2.2).count Event.onBotExit = 1 :=
  keyboardInterrupt_clean_stop env0 st0 [] [worldOK] wKI kiExc rfl (by decide)
    (by simp)

/-- C6: a successful cycle executes its statements in exactly the source
order — refresh conversion rates, pre-cycle plugin hook, rebalance
transfers, cancel offers, place offers, post-cycle plugin hook, publish
status (refresh then persist, then stdout flush), then sleep for the
configured cycle interval — and its trace is exactly that sequence, so no
step runs before all earlier steps of the cycle have completed. -/
theorem successful_cycle_order (env : Env) (st : ApiState) (w : World)
    (hok : ∀ s, w.failsAt s = none) :
    runIteration pyMember env st w =
      (Outcome.next, st,
       [Event.updateConversionRates, Event.beforeLending, Event.transferBalances,
        Event.cancelAll, Event.lendAll, Event.afterLending, Event.refreshStatus,
        Event.persistStatus, Event.flushStdout, Event.sleep env.sleepTime]) := by
  unfold runIteration runCycle stepOrder
  simp [runSteps, hok, stepEvent]

theorem successful_cycle_order_witness :
    runIteration pyMember env0 st0 worldOK =
      (Outcome.next, st0,
       [Event.updateConversionRates, Event.beforeLending, Event.transferBalances,
        Event.cancelAll, Event.lendAll, Event.afterLending, Event.refreshStatus,
        Event.persistStatus, Event.flushStdout, Event.sleep 60]) :=
  successful_cycle_order env0 st0 worldOK (fun _ => rfl)

/-- C7: a transport-level failure of the ignorable kind — a malformed HTTP
status line (`BadStatusLine`) or a socket/connection error (`URLError`) —
raised during a cycle is logged with a single print and the loop continues
immediately to the next cycle: outcome `next`, adapter state untouched, no
sleep anywhere in the iteration's trace, nothing re-raised. -/
theorem transport_errors_ignored (env : Env) (st : ApiState) (w : World) (e : PyExc)
    (hraise : cycleException env w = some e)
    (hkind : e.kind = ExcKind.badStatusLine ∨ e.kind = ExcKind.urlError) :
    (runIteration pyMember env st w).1 = Outcome.next ∧
    (runIteration pyMember env st w).2.1 = st ∧
    (∀ t, Event.sleep t ∉ (runIteration pyMember env st w).2.2) ∧
    handleExc pyMember env st e =
      (Outcome.next, st,
       [Event.print (if e.kind = ExcKind.badStatusLine
          then "Caught BadStatusLine exception from Poloniex, ignoring."
          else "Caught " ++ e.msg ++ " from exchange, ignoring.")]) := by
  obtain ⟨evs0, hc⟩ := cycleException_eq_some hraise
  have hh : handleExc pyMember env st e =
      (Outcome.next, st,
       [Event.print (if e.kind = ExcKind.badStatusLine
          then "Caught BadStatusLine exception from Poloniex, ignoring."
          else "Caught " ++ e.msg ++ " from exchange, ignoring.")]) := by
    obtain ⟨k, m⟩ := e
    rcases hkind with h | h
    · simp only at h
      subst h
      rfl
    · simp only at h
      subst h
      rfl
  have hiter : runIteration pyMember env st w =
      (Outcome.next, st, evs0 ++
       [Event.print (if e.kind = ExcKind.badStatusLine
          then "Caught BadStatusLine exception from Poloniex, ignoring."
          else "Caught " ++ e.msg ++ " from exchange, ignoring.")]) := by
    simp [runIteration, hc, hh]
  have hsleepfree := runSteps_error_sleep_free env w stepOrder (by decide) e evs0 hc
  refine ⟨by rw [hiter], by rw [hiter], ?_, hh⟩
  intro t hmem
  rw [hiter] at hmem
  simp only at hmem
  rcases List.mem_append.mp hmem with h1 | h1
  · exact hsleepfree t h1
  · simp at h1

/-- A malformed HTTP status line surfacing as `BadStatusLine`. -/
def badStatusExc : PyExc := ⟨ExcKind.badStatusLine, "BadStatusLine"⟩

theorem transport_errors_ignored_witness :
    (runIteration pyMember env0 st0 (worldFail Step.cancelAll badStatusExc)).1 =
      Outcome.next ∧
    (runIteration pyMember env0 st0 (worldFail Step.cancelAll badStatusExc)).2.1 =
      st0 ∧
    handleExc pyMember env0 st0 badStatusExc =
      (Outcome.next, st0,
       [Event.print "Caught BadStatusLine exception from Poloniex, ignoring."]) :=
  have h := transport_errors_ignored env0 st0 (worldFail Step.cancelAll badStatusExc)
    badStatusExc (by decide) (Or.inl rfl)
  ⟨h.1, h.2.1, h.2.2.2⟩

/-- C9: an `ApiError` (the typed error for an exchange-reported JSON error)
is caught by its own `except` clause before the generic classifier runs:
the loop prints it and continues immediately, with no sleep, no
`log_error`, and no re-raise — regardless of its message content, so an
`ApiError` carrying authentication-failure or nonce text never terminates
the loop. -/
theorem apiError_ignored_before_classifier (env : Env) (st : ApiState)
    (w : World) (e : PyExc)
    (hraise : cycleException env w = some e)
    (hkind : e.kind = ExcKind.apiError) :
    (runIteration pyMember env st w).1 = Outcome.next ∧
    (runIteration pyMember env st w).2.1 = st ∧
    (∀ t, Event.sleep t ∉ (runIteration pyMember env st w).2.2) ∧
    (∀ m, Event.logError m ∉ (runIteration pyMember env st w).2.2) ∧
    handleExc pyMember env st e =
      (Outcome.next, st,
       [Event.print ("Caught " ++ e.msg ++ " reading from exchange API, ignoring.")]) := by
  obtain ⟨evs0, hc⟩ := cycleException_eq_some hraise
  have hh : handleExc pyMember env st e =
      (Outcome.next, st,
       [Event.print ("Caught " ++ e.msg ++ " reading from exchange API, ignoring.")]) := by
    obtain ⟨k, m⟩ := e
    simp only at hkind
    subst hkind
    rfl
  have hiter : runIteration pyMember env st w =
      (Outcome.next, st, evs0 ++
       [Event.print ("Caught " ++ e.msg ++ " reading from exchange API, ignoring.")]) := by
    simp [runIteration, hc, hh]
  have hsleepfree := runSteps_error_sleep_free env w stepOrder (by decide) e evs0 hc
  refine ⟨by rw [hiter], by rw [hiter], ?_, ?_, hh⟩
  · intro t hmem
    rw [hiter] at hmem
    simp only at hmem
    rcases List.mem_append.mp hmem with h1 | h1
    · exact hsleepfree t h1
    · simp at h1
  · intro m hmem
    rw [hiter] at hmem
    simp only at hmem
    rcases List.mem_append.mp hmem with h1 | h1
    · obtain ⟨s, hs⟩ := runSteps_error_events_are_steps env w stepOrder e evs0 hc _ h1
      exact stepEvent_ne_logError env s m hs.symm
    · simp at h1

/-- An `ApiError` whose message is exactly the Fatal-class authentication
text; C9 shows even this one is ignored, not surfaced. -/
def apiAuthExc : PyExc := ⟨ExcKind.apiError, "Invalid API key/secret pair."⟩

theorem apiError_ignored_before_classifier_witness :
    (runIteration pyMember env0 st0 (worldFail Step.lendAll apiAuthExc)).1 =
      Outcome.next ∧
    (runIteration pyMember env0 st0 (worldFail Step.lendAll apiAuthExc)).2.1 =
      st0 ∧
    handleExc pyMember env0 st0 apiAuthExc =
      (Outcome.next, st0,
       [Event.print ("Caught " ++ "Invalid API key/secret pair." ++
          " reading from exchange API, ignoring.")]) :=
  have h := apiError_ignored_before_classifier env0 st0
    (worldFail Step.lendAll apiAuthExc) apiAuthExc (by decide) rfl
  ⟨h.1, h.2.1, h.2.2.2.2⟩

/-- C8: `ExchangeApiFactory.createApi` fails with the invalid-exchange
error and constructs nothing when the identifier is not a key of
`EXCHANGE`; for each known identifier it returns exactly one instance of
the corresponding concrete class, constructed from the given `cfg` and
`log`, with no other effect. -/
theorem createApi_spec (exchange : String) (cfg log : Nat) :
    (exchange ∉ ["POLONIEX", "BITFINEX"] →
      createApi exchange cfg log =
        Except.error ⟨ExcKind.other, "Invalid exchange: " ++ exchange⟩) ∧
    createApi "POLONIEX" cfg log = Except.ok (ExchangeApiInstance.poloniex cfg log) ∧
    createApi "BITFINEX" cfg log = Except.ok (ExchangeApiInstance.bitfinex cfg log) := by
  refine ⟨fun h => ?_, rfl, rfl⟩
  have h1 : exchange ≠ "POLONIEX" := fun hh => h (by rw [hh]; simp)
  have h2 : exchange ≠ "BITFINEX" := fun hh => h (by rw [hh]; simp)
  have hb1 : (exchange == "POLONIEX") = false := beq_eq_false_iff_ne.mpr h1
  have hb2 : (exchange == "BITFINEX") = false := beq_eq_false_iff_ne.mpr h2
  simp [createApi, EXCHANGE, List.lookup, hb1, hb2]

theorem createApi_spec_witness :
    createApi "KRAKEN" 7 3 =
      Except.error ⟨ExcKind.other, "Invalid exchange: " ++ "KRAKEN"⟩ ∧
    createApi "POLONIEX" 7 3 = Except.ok (ExchangeApiInstance.poloniex 7 3) ∧
    createApi "BITFINEX" 7 3 = Except.ok (ExchangeApiInstance.bitfinex 7 3) :=
  have h := createApi_spec "KRAKEN" 7 3
  ⟨h.1 (by decide), h.2.1, h.2.2⟩

/-! ## The generic classifier under Python 3

The `except Exception` clause tests `'Invalid API key' in ex` (and four
more substrings) directly on the exception object.  Under Python 3 every
such test raises `TypeError`, so after `log.log_error(ex)` and
`log.persistStatus()` the handler itself raises and the loop dies for
every exception that reaches the generic clause, whatever its message.
The following theorems evaluate the embedded handler at the concrete
inputs the spec's classification table is about. -/

/-- C1 divergence: an exception whose message matches no Fatal and no
rate-limit row is logged, but then the handler raises `TypeError` at its
first membership test — no notification, no sleep, no next cycle; the
exception kills `main`. -/
theorem generic_handler_typeerror_unrecognized :
    handleExc pyMember env0 st0 ⟨ExcKind.other, "HTTP 502 Bad Gateway"⟩ =
      (Outcome.raised pyTypeError, st0,
       [Event.logError "HTTP 502 Bad Gateway", Event.persistStatus]) ∧
    (lendingbotMain env0 st0
        [worldFail Step.lendAll ⟨ExcKind.other, "HTTP 502 Bad Gateway"⟩, worldOK]).1 =
      MainResult.crashed pyTypeError := by
  decide

/-- C2 divergence: an exception whose message is exactly the
authentication-failure text never gets its troubleshooting hint printed
and is not itself re-raised: the membership test raises `TypeError`
(a different exception) first. -/
theorem generic_handler_typeerror_auth :
    handleExc pyMember env0 st0 ⟨ExcKind.other, "Invalid API key/secret pair."⟩ =
      (Outcome.raised pyTypeError, st0,
       [Event.logError "Invalid API key/secret pair.", Event.persistStatus]) ∧
    pyTypeError ≠ ⟨ExcKind.other, "Invalid API key/secret pair."⟩ := by
  decide

/-- C3 divergence: an `'Error 429'` rate-limit failure never reaches the
`max(130 − interval, 0)` backoff: the handler raises `TypeError` before
the rate-limit test, and its trace contains no sleep at all. -/
theorem generic_handler_typeerror_rate_limit :
    handleExc pyMember env0 st0 ⟨ExcKind.other, "Error 429: Too Many Requests"⟩ =
      (Outcome.raised pyTypeError, st0,
       [Event.logError "Error 429: Too Many Requests", Event.persistStatus]) ∧
    (∀ t, Event.sleep t ∉
      (handleExc pyMember env0 st0
        ⟨ExcKind.other, "Error 429: Too Many Requests"⟩).2.2) := by
  refine ⟨by decide, ?_⟩
  intro t
  rw [handleExc_pyMember_other env0 st0 _ rfl]
  simp

/-- C4 divergence: with a rate-limit message observed and `req_period` at
its default (well under the 1.5× cap), the handler leaves `req_period`
unchanged — the throttle adjustment is dead code behind the `TypeError`. -/
theorem req_period_not_increased_on_rate_limit :
    (handleExc pyMember env0 st0 ⟨ExcKind.other, "Error 429"⟩).2.1 = st0 ∧
    st0.req_period = 100 ∧ st0.default_req_period = 100 ∧
    (handleExc pyMember env0 st0 ⟨ExcKind.other, "Error 429"⟩).1 =
      Outcome.raised pyTypeError := by
  decide

/-- C10 divergence: on an `'Error 429'` failure without the
`MarketAnalysis.analyseCurrencies` option, `req_period` is indeed left
unchanged, but the claimed additional sleep does not occur either — the
handler raises `TypeError` first, and it behaves identically with the
option present. -/
theorem no_extra_sleep_without_marketanalysis :
    handleExc pyMember envNoMA st0 ⟨ExcKind.other, "Error 429 banned your IP"⟩ =
      (Outcome.raised pyTypeError, st0,
       [Event.logError "Error 429 banned your IP", Event.persistStatus]) ∧
    handleExc pyMember env0 st0 ⟨ExcKind.other, "Error 429 banned your IP"⟩ =
      (Outcome.raised pyTypeError, st0,
       [Event.logError "Error 429 banned your IP", Event.persistStatus]) := by
  decide

/-- Under the membership semantics the handler's author evidently intended
(substring of `str(ex)`; the upstream Python 2 code used `ex.message`), an
`'Error 429'` failure with MarketAnalysis enabled would sleep
`max(130 − interval, 0)` extra seconds plus the standard interval and bump
`req_period` by 3 — the behaviour the surrounding prints describe.  This
path is unreachable under Python 3. -/
theorem intended_rate_limit_behaviour :
    handleExc pyMemberStr env0 st0 ⟨ExcKind.other, "Error 429"⟩ =
      (Outcome.next, ⟨103, 100⟩,
       [Event.logError "Error 429", Event.persistStatus,
        Event.logBanSleep 130, Event.sleep 70, Event.flushStdout,
        Event.sleep 60]) := by
  have m1 : strContains "Error 429" "Invalid API key" = false := by decide
  have m2 : strContains "Error 429" "Nonce must be greater" = false := by decide
  have m3 : strContains "Error 429" "Permission denied" = false := by decide
  have m4 : strContains "Error 429" "timed out" = false := by decide
  have m5 : strContains "Error 429" "Error 429" = true := by decide
  have hle : st0.req_period ≤ st0.default_req_period * (3 / 2) := by
    norm_num [st0]
  simp only [handleExc, genericExceptClause, pyMemberStr, m1, m2, m3, m4, m5,
    hle, if_pos, env0, st0]
  norm_num

/-- Even under the intended semantics, the cap test `req_period <=
default_req_period * 1.5` runs before the `+= 3`, so `req_period` can end
at 1.5× its default plus 3, beyond the documented cap. -/
theorem intended_rate_limit_cap_exceeded :
    (handleExc pyMemberStr env0 ⟨150, 100⟩ ⟨ExcKind.other, "Error 429"⟩).2.1.req_period = 153 ∧
    (100 : ℚ) * (3 / 2) < 153 := by
  have m1 : strContains "Error 429" "Invalid API key" = false := by decide
  have m2 : strContains "Error 429" "Nonce must be greater" = false := by decide
  have m3 : strContains "Error 429" "Permission denied" = false := by decide
  have m4 : strContains "Error 429" "timed out" = false := by decide
  have m5 : strContains "Error 429" "Error 429" = true := by decide
  have hle : (⟨150, 100⟩ : ApiState).req_period ≤
      (⟨150, 100⟩ : ApiState).default_req_period * (3 / 2) := by
    norm_num
  refine ⟨?_, by norm_num⟩
  simp only [handleExc, genericExceptClause, pyMemberStr, m1, m2, m3, m4, m5,
    hle, if_pos, env0]
  norm_num

end LendingBot
